import Mathlib

/-!
Verification of `llmagent/language_models/base.py`: a shallow embedding of
the language-model abstraction, the concurrent verbatim extractor, the
summary-answer composer, and the streaming toggle scope, together with
theorems settling the specified properties.

Python strings are embedded as Lean `String`; Python `dict` metadata as an
association list `List (String × MVal)` looked up with `List.lookup`;
exceptions as `Except Err`; the `async` fan-out joined by `asyncio.gather`
as a monadic sequence over `Except` (an error in any branch makes the whole
batch an error, exactly as the first raised exception propagates out of
`gather`); the mutable stream flag of a model instance as explicit state
passing.
-/

namespace Llmagent

/-- Values storable in a Document metadata mapping (the code stores strings
and booleans: the "source" citation and the "cached" flag). -/
inductive MVal where
  | str (s : String)
  | bool (b : Bool)
deriving DecidableEq, Repr

/-- Python `str(...)` / f-string rendering of a metadata value. -/
def MVal.format : MVal → String
  | .str s => s
  | .bool b => if b then "True" else "False"

/-- Modelled from the spec: `Document` (from `llmagent.mytypes`, not under
`src/`) is a unit of text plus a string-keyed metadata mapping. -/
structure Document where
  content : String
  metadata : List (String × MVal)
deriving DecidableEq, Repr

/-- `LLMResponse`: message text, token usage, cache-hit flag. -/
structure LLMResponse where
  message : String
  usage : Nat
  cached : Bool := false
deriving DecidableEq, Repr

/-- Errors surfaced by the embedded operations: a Python `KeyError` on a
missing metadata key, or a provider/transport error from a remote call. -/
inductive Err where
  | keyError (key : String)
  | llmError (msg : String)
deriving DecidableEq, Repr

deriving instance DecidableEq for Except

/-- `RedisCacheConfig` (external collaborator; only its construction
arguments appear in this file: hostname and port). -/
structure RedisCacheConfig where
  hostname : String
  port : Nat
deriving DecidableEq, Repr

/-- `LLMConfig` with the defaults of the source. -/
structure LLMConfig where
  type : String := "openai"
  max_tokens : Nat := 1024
  use_chat_for_completion : Bool := true
  stream : Bool := false
  cache_config : RedisCacheConfig :=
    { hostname := "redis-11524.c251.east-us-mz.azure.cloud.redislabs.com"
      port := 11524 }
deriving DecidableEq, Repr

/-- The concrete implementation classes `LanguageModel.create` can select
(the source registers exactly one, `OpenAIGPT`). -/
inductive LLMClass where
  | openAIGPT
deriving DecidableEq, Repr

/-- The dispatch dictionary of `LanguageModel.create`:
`dict(openai=OpenAIGPT)`. -/
def createRegistry : List (String × LLMClass) := [("openai", LLMClass.openAIGPT)]

/-- A language model instance: its mutable stream flag plus the behavior of
its abstract `generate` and `agenerate` calls (each may fail, as a remote
call may raise). -/
structure LanguageModel where
  stream : Bool
  generateFn : String → Nat → Except Err LLMResponse
  agenerateFn : String → Nat → Except Err LLMResponse

/-- `LanguageModel.create(config)`: look the provider tag up in the
dispatch dictionary, defaulting to `OpenAIGPT` (`.get(config.type, OpenAIGPT)`). -/
def LanguageModel.create (config : LLMConfig) : LLMClass :=
  (createRegistry.lookup config.type).getD LLMClass.openAIGPT

/-- `set_stream`: enable or disable streaming, returning the previous value
(state-passing embedding: also returns the updated instance). -/
def LanguageModel.set_stream (m : LanguageModel) (stream : Bool) :
    Bool × LanguageModel :=
  (m.stream, { m with stream := stream })

/-- `get_stream`: current streaming status. -/
def LanguageModel.get_stream (m : LanguageModel) : Bool := m.stream

/-! ### Python string primitives -/

/-- ASCII approximation of the whitespace stripped by Python `str.strip()`. -/
def pyIsSpace (c : Char) : Bool :=
  c = ' ' || c = '\t' || c = '\n' || c = '\r' || c = '\x0b' || c = '\x0c'

/-- Strip `pyIsSpace` characters from both ends of a character list. -/
def stripChars (l : List Char) : List Char :=
  ((l.dropWhile pyIsSpace).reverse.dropWhile pyIsSpace).reverse

/-- Python `s.strip()`. -/
def pyStrip (s : String) : String := String.mk (stripChars s.data)

/-- Index of the first occurrence of `sep` in `l`, if any. -/
def firstOccur (sep : List Char) : List Char → Option Nat
  | [] => if sep.isEmpty then some 0 else none
  | c :: t =>
    if sep.isPrefixOf (c :: t) then some 0
    else (firstOccur sep t).map (· + 1)

/-- Python `s.split(sep, maxsplit=1)` for a non-empty separator: one or two
pieces, split at the first occurrence of `sep`. -/
def pySplitOnce (s sep : String) : List String :=
  match firstOccur sep.data s.data with
  | some i => [String.mk (s.data.take i), String.mk (s.data.drop (i + sep.length))]
  | none => [s]

/-! ### Prompt templates (external collaborators) -/

/-- Modelled from the spec: `EXTRACTION_PROMPT_GPT4` (in
`llmagent/prompts/templates.py`, not under `src/`) is a fixed template with
named placeholders for the question and the passage content; here its
`.format(question=, content=)` call. -/
def EXTRACTION_PROMPT_GPT4.format (question content : String) : String :=
  "Given the question and the content, extract the verbatim relevant text.\nQuestion: "
    ++ question ++ "\nContent: " ++ content

/-- Modelled from the spec: `SUMMARY_ANSWER_PROMPT_GPT4` (in
`llmagent/prompts/templates.py`, not under `src/`) is a fixed template with
named placeholders for the question and the joined extracts; here its
`.format(question=, extracts=)` call. -/
def SUMMARY_ANSWER_PROMPT_GPT4.format (question extracts : String) : String :=
  "Use the extracts to answer the question, citing sources.\n"
    ++ question ++ "\nExtracts: " ++ extracts

/-! ### The operations of `LanguageModel` -/

/-- Join of `asyncio.gather` over fallible branches: succeed with the list
of all results when every branch succeeds; an error in any branch is an
error of the whole batch. -/
def gatherExcept : List (Except Err α) → Except Err (List α)
  | [] => Except.ok []
  | e :: t =>
    match e with
    | Except.error err => Except.error err
    | Except.ok a =>
      match gatherExcept t with
      | Except.error err => Except.error err
      | Except.ok as => Except.ok (a :: as)

/-- `get_verbatim_extract_async`: build the extraction prompt from the
question and the passage content, make one model call with
`max_tokens=1024`, and return the stripped message text. -/
def LanguageModel.get_verbatim_extract_async (m : LanguageModel)
    (question : String) (passage : Document) : Except Err String :=
  let final_prompt := EXTRACTION_PROMPT_GPT4.format question passage.content
  match m.agenerateFn final_prompt 1024 with
  | Except.error err => Except.error err
  | Except.ok final_extract => Except.ok (pyStrip final_extract.message)

/-- `_get_verbatim_extracts`: gather the per-passage extraction calls, then
zip the extract texts with the original passages metadata to build the
result Documents. -/
def LanguageModel._get_verbatim_extracts (m : LanguageModel)
    (question : String) (passages : List Document) : Except Err (List Document) :=
  match gatherExcept (passages.map (fun P => m.get_verbatim_extract_async question P)) with
  | Except.error err => Except.error err
  | Except.ok verbatim_extracts =>
    let metadatas := passages.map (fun P => P.metadata)
    Except.ok ((verbatim_extracts.zip metadatas).map
      (fun em => { content := em.fst, metadata := em.snd }))

/-- `get_verbatim_extracts`: run the async helper to completion
(`asyncio.run`). -/
def LanguageModel.get_verbatim_extracts (m : LanguageModel)
    (question : String) (passages : List Document) : Except Err (List Document) :=
  m._get_verbatim_extracts question passages

/-- The f-string rendering one passage inside `stringify_passages`, with
the exact literal whitespace of the triple-quoted source string. -/
def passagePiece (content source : String) : String :=
  "\n                Extract: " ++ content
    ++ "\n                Source: " ++ source
    ++ "\n                "

/-- The body of the list comprehension in `stringify_passages`: the
`p.metadata["source"]` subscript raises `KeyError` when the key is absent. -/
def passagePieceOf (p : Document) : Except Err String :=
  match p.metadata.lookup "source" with
  | some v => Except.ok (passagePiece p.content v.format)
  | none => Except.error (Err.keyError "source")

/-- Fallible map, left to right, stopping at the first error (Python list
comprehension evaluation order). -/
def mapExcept (f : α → Except Err β) : List α → Except Err (List β)
  | [] => Except.ok []
  | a :: t =>
    match f a with
    | Except.error err => Except.error err
    | Except.ok b =>
      match mapExcept f t with
      | Except.error err => Except.error err
      | Except.ok bs => Except.ok (b :: bs)

/-- `stringify_passages`: render each passage and join with newlines. -/
def stringify_passages (passages : List Document) : Except Err String :=
  match mapExcept passagePieceOf passages with
  | Except.error err => Except.error err
  | Except.ok pieces => Except.ok (String.intercalate "\n" pieces)

/-- `get_summary_answer`: stringify the passages, substitute into the
summary prompt, make one `generate` call with `max_tokens=1024`, strip the
response, split on the first `"SOURCE:"` marker, and wrap the answer body
with `source` and `cached` metadata. -/
def LanguageModel.get_summary_answer (m : LanguageModel)
    (question : String) (passages : List Document) : Except Err Document :=
  match stringify_passages passages with
  | Except.error err => Except.error err
  | Except.ok passagesStr =>
    let final_prompt :=
      SUMMARY_ANSWER_PROMPT_GPT4.format ("Question:" ++ question) passagesStr
    match m.generateFn final_prompt 1024 with
    | Except.error err => Except.error err
    | Except.ok llm_response =>
      let final_answer := pyStrip llm_response.message
      let parts := pySplitOnce final_answer "SOURCE:"
      let content := if parts.length > 1 then pyStrip (parts.headD "") else final_answer
      let sources := if parts.length > 1 then pyStrip (parts.getD 1 "") else ""
      Except.ok
        { content := content
          metadata :=
            [("source", MVal.str ("SOURCE: " ++ sources)),
             ("cached", MVal.bool llm_response.cached)] }

/-! ### StreamingIfAllowed -/

/-- Modelled from the spec: the process-wide settings object
(`llmagent.utils.configuration.settings`, not under `src/`), of which only
the global `stream` flag is read here. -/
structure Settings where
  stream : Bool

/-- The `StreamingIfAllowed` context manager after `__enter__`: the desired
flag from `__init__` and the remembered previous value of the model's
stream flag. -/
structure StreamingIfAllowed where
  stream : Bool
  old_stream : Bool

/-- `StreamingIfAllowed.__enter__`:
`self.old_stream = self.llm.set_stream(settings.stream and self.stream)`. -/
def StreamingIfAllowed.enter (settings : Settings) (stream : Bool)
    (llm : LanguageModel) : StreamingIfAllowed × LanguageModel :=
  let r := llm.set_stream (settings.stream && stream)
  ({ stream := stream, old_stream := r.fst }, r.snd)

/-- `StreamingIfAllowed.__exit__`: `self.llm.set_stream(self.old_stream)`,
run on every exit path. -/
def StreamingIfAllowed.exit (self : StreamingIfAllowed)
    (llm : LanguageModel) : LanguageModel :=
  (llm.set_stream self.old_stream).snd

/-- A `with StreamingIfAllowed(llm, stream):` block around a body that may
use and mutate the model and may raise (`Except.error`): `__enter__`, then
the body, then `__exit__` on both the normal and the raising path. -/
def withStreamingIfAllowed (settings : Settings) (stream : Bool)
    (llm : LanguageModel)
    (body : LanguageModel → Except Err α × LanguageModel) :
    Except Err α × LanguageModel :=
  let entered := StreamingIfAllowed.enter settings stream llm
  let r := body entered.snd
  (r.fst, entered.fst.exit r.snd)

/-! ### Helper lemmas -/

theorem gatherExcept_ok_length (es : List (Except Err α)) (as : List α)
    (h : gatherExcept es = Except.ok as) : as.length = es.length := by
  induction es generalizing as with
  | nil =>
    simp only [gatherExcept] at h
    cases h
    rfl
  | cons e t ih =>
    cases e with
    | error err => simp [gatherExcept] at h
    | ok a =>
      cases ht : gatherExcept t with
      | error err => simp [gatherExcept, ht] at h
      | ok bs =>
        simp only [gatherExcept, ht] at h
        cases h
        simp [ih bs ht]

theorem gatherExcept_ok_get (es : List (Except Err α)) (as : List α)
    (h : gatherExcept es = Except.ok as) (i : Nat) (hi : i < es.length)
    (hi2 : i < as.length) : es.get ⟨i, hi⟩ = Except.ok (as.get ⟨i, hi2⟩) := by
  induction es generalizing as i with
  | nil => cases hi
  | cons e t ih =>
    cases e with
    | error err => simp [gatherExcept] at h
    | ok a =>
      cases ht : gatherExcept t with
      | error err => simp [gatherExcept, ht] at h
      | ok bs =>
        simp only [gatherExcept, ht] at h
        cases h
        cases i with
        | zero => rfl
        | succ j =>
          exact ih bs ht j (Nat.lt_of_succ_lt_succ hi) (Nat.lt_of_succ_lt_succ hi2)

theorem gatherExcept_error_of_mem (es : List (Except Err α)) (err : Err)
    (hmem : Except.error err ∈ es) :
    ∃ e2, gatherExcept es = Except.error e2 := by
  induction es with
  | nil => cases hmem
  | cons e t ih =>
    rcases List.mem_cons.mp hmem with he | ht
    · exact ⟨err, by rw [← he]; rfl⟩
    · cases e with
      | error e2 => exact ⟨e2, rfl⟩
      | ok a =>
        obtain ⟨e3, h3⟩ := ih ht
        exact ⟨e3, by simp [gatherExcept, h3]⟩

theorem head?_dropWhile_false (p : α → Bool) (l : List α) (a : α)
    (h : (l.dropWhile p).head? = some a) : p a = false := by
  induction l with
  | nil => simp [List.dropWhile] at h
  | cons b t ih =>
    by_cases hp : p b
    · rw [List.dropWhile_cons_of_pos hp] at h
      exact ih h
    · rw [List.dropWhile_cons_of_neg hp] at h
      simp only [List.head?_cons, Option.some.injEq] at h
      subst h
      exact Bool.eq_false_iff.mpr hp

theorem getLast?_dropWhile_of_ne_nil (p : α → Bool) (l : List α)
    (h : l.dropWhile p ≠ []) : (l.dropWhile p).getLast? = l.getLast? := by
  induction l with
  | nil => simp at h
  | cons b t ih =>
    by_cases hp : p b
    · rw [List.dropWhile_cons_of_pos hp] at h ⊢
      rw [ih h]
      cases t with
      | nil => simp [List.dropWhile] at h
      | cons c t2 => rw [List.getLast?_cons_cons]
    · rw [List.dropWhile_cons_of_neg hp]

/-- A string with no leading and no trailing (Python) whitespace. -/
def strippedStr (s : String) : Prop :=
  (∀ a, s.data.head? = some a → pyIsSpace a = false) ∧
  (∀ a, s.data.getLast? = some a → pyIsSpace a = false)

theorem pyStrip_strippedStr (s : String) : strippedStr (pyStrip s) := by
  constructor
  · intro a ha
    have hd : (pyStrip s).data = stripChars s.data := rfl
    rw [hd] at ha
    unfold stripChars at ha
    rw [List.head?_reverse] at ha
    have hne : ((s.data.dropWhile pyIsSpace).reverse.dropWhile pyIsSpace) ≠ [] := by
      intro hnil
      rw [hnil] at ha
      cases ha
    rw [getLast?_dropWhile_of_ne_nil pyIsSpace _ hne] at ha
    rw [List.getLast?_reverse] at ha
    exact head?_dropWhile_false pyIsSpace _ a ha
  · intro a ha
    have hd : (pyStrip s).data = stripChars s.data := rfl
    rw [hd] at ha
    unfold stripChars at ha
    rw [List.getLast?_reverse] at ha
    exact head?_dropWhile_false pyIsSpace _ a ha

theorem mapExcept_pieces_missing (passages : List Document) (p : Document)
    (hmem : p ∈ passages) (hnone : p.metadata.lookup "source" = none) :
    mapExcept passagePieceOf passages = Except.error (Err.keyError "source") := by
  induction passages with
  | nil => cases hmem
  | cons a t ih =>
    cases ha : a.metadata.lookup "source" with
    | none =>
      simp [mapExcept, passagePieceOf, ha]
    | some v =>
      rcases List.mem_cons.mp hmem with he | ht
      · rw [he] at hnone
        rw [hnone] at ha
        cases ha
      · simp [mapExcept, passagePieceOf, ha, ih ht]

/-! ### Concrete fixtures for witnesses -/

/-- A model that answers every call with the same fixed message. -/
def constModel (msg : String) : LanguageModel :=
  { stream := false
    generateFn := fun _ _ => Except.ok { message := msg, usage := 3, cached := false }
    agenerateFn := fun _ _ => Except.ok { message := msg, usage := 3, cached := false } }

/-- A model whose every call raises a provider error. -/
def failModel : LanguageModel :=
  { stream := false
    generateFn := fun _ _ => Except.error (Err.llmError "boom")
    agenerateFn := fun _ _ => Except.error (Err.llmError "boom") }

def doc1 : Document := { content := "c1", metadata := [("source", MVal.str "S1")] }

def doc2 : Document := { content := "c2", metadata := [("source", MVal.str "S2")] }

/-- A passage whose metadata lacks the "source" key. -/
def docNoSource : Document := { content := "c3", metadata := [("page", MVal.str "7")] }

/-- A configuration with an unregistered provider tag. -/
def mysteryConfig : LLMConfig := { type := "anthropic" }

/-- The Documents produced by extracting over `[doc1, doc2]` with a model
that always answers "  hello\n". -/
def extractsHello : List Document :=
  [{ content := "hello", metadata := [("source", MVal.str "S1")] },
   { content := "hello", metadata := [("source", MVal.str "S2")] }]

/-- The Documents produced by extracting over `[doc1]` with a model that
always answers " fact-1 ". -/
def extractsFact : List Document :=
  [{ content := "fact-1", metadata := [("source", MVal.str "S1")] }]

/-- The response of `constModel " fact-1 "`. -/
def rspFact : LLMResponse := { message := " fact-1 ", usage := 3, cached := false }

/-- A response whose text carries a "SOURCE:" citation marker. -/
def rspMarker : LLMResponse :=
  { message := "...answer text...SOURCE: Doc1, Doc2", usage := 3, cached := false }

/-- A response whose text has no "SOURCE:" marker and trailing whitespace. -/
def rspPlain : LLMResponse :=
  { message := "just an answer  ", usage := 3, cached := false }

/-- `stringify_passages [doc1]`, written out. -/
def spDoc1 : String :=
  "\n                Extract: c1\n                Source: S1\n                "

/-! ### Claim theorems -/

/-- C5: for every model, settings, desired flag and scope body — whether the
body returns normally or raises (`Except.error`), and even if the body
itself toggles the stream flag — after a `StreamingIfAllowed` scope exits,
the model's stream flag equals its value before entry (`__exit__` restores
the remembered previous value via `set_stream` on every exit path). -/
theorem streamingIfAllowed_restores_stream (settings : Settings) (stream : Bool)
    (llm : LanguageModel) (body : LanguageModel → Except Err α × LanguageModel) :
    (withStreamingIfAllowed settings stream llm body).snd.stream = llm.stream := rfl

/-- C6: on entry to a `StreamingIfAllowed` scope with desired flag `stream`,
the model's stream flag is set to `settings.stream && stream`; in particular
with global streaming disabled and desired `true`, the flag in scope is
`false`. -/
theorem streamingIfAllowed_enter_effective (settings : Settings) (stream : Bool)
    (llm : LanguageModel) :
    (StreamingIfAllowed.enter settings stream llm).snd.stream
        = (settings.stream && stream) ∧
    (StreamingIfAllowed.enter { stream := false } true llm).snd.stream = false :=
  ⟨rfl, rfl⟩

/-- C7: `LanguageModel.create` selects the implementation by looking
`config.type` up in the registry, and any unrecognized tag (not in the
registry) yields the default `OpenAIGPT` rather than failing — indeed every
configuration yields `OpenAIGPT`, the single registered class. -/
theorem create_selects_by_tag_with_default (config : LLMConfig) :
    LanguageModel.create config = LLMClass.openAIGPT ∧
    (config.type ≠ "openai" → createRegistry.lookup config.type = none) := by
  constructor
  · by_cases h : config.type = "openai" <;>
      simp [LanguageModel.create, createRegistry, List.lookup, h]
  · intro h
    simp [createRegistry, List.lookup, beq_eq_false_iff_ne.mpr h]

/-- Witness for C7 at the unregistered tag "anthropic". -/
theorem create_selects_by_tag_with_default_witness :
    LanguageModel.create mysteryConfig = LLMClass.openAIGPT ∧
    createRegistry.lookup mysteryConfig.type = none :=
  ⟨(create_selects_by_tag_with_default mysteryConfig).1,
   (create_selects_by_tag_with_default mysteryConfig).2 (by decide)⟩

/-- C9: on the empty passage list, `get_verbatim_extracts` returns the
empty list, for every model — including one whose every call raises, so no
model call is issued. -/
theorem get_verbatim_extracts_nil (m : LanguageModel) (question : String) :
    m.get_verbatim_extracts question [] = Except.ok [] := rfl

/-- C1: whenever `get_verbatim_extracts` succeeds on a non-empty passage
list, the result has the same length as the input, and the i-th output
Document's metadata equals (by value) the i-th input passage's metadata. -/
theorem get_verbatim_extracts_preserves_metadata (m : LanguageModel)
    (question : String) (passages docs : List Document)
    (hne : passages ≠ [])
    (h : m.get_verbatim_extracts question passages = Except.ok docs) :
    docs.length = passages.length ∧
    docs.map (fun d => d.metadata) = passages.map (fun P => P.metadata) := by
  unfold LanguageModel.get_verbatim_extracts LanguageModel._get_verbatim_extracts at h
  cases hg : gatherExcept
      (passages.map (fun P => m.get_verbatim_extract_async question P)) with
  | error e => rw [hg] at h; cases h
  | ok ve =>
    rw [hg] at h
    simp only [Except.ok.injEq] at h
    have hlen : ve.length = passages.length := by
      have := gatherExcept_ok_length _ _ hg
      simpa using this
    have hdl : docs.length = passages.length := by
      rw [← h]
      simp [hlen]
    refine ⟨hdl, ?_⟩
    rw [← h, List.map_map]
    have hsnd : (ve.zip (passages.map (fun P => P.metadata))).map Prod.snd
        = passages.map (fun P => P.metadata) := by
      apply List.map_snd_zip
      simp [hlen]
    calc (ve.zip (passages.map (fun P => P.metadata))).map
            ((fun d : Document => d.metadata) ∘ (fun em => { content := em.fst, metadata := em.snd }))
        = (ve.zip (passages.map (fun P => P.metadata))).map Prod.snd := rfl
      _ = passages.map (fun P => P.metadata) := hsnd

/-- C2: if any one of the per-passage extraction calls fails, the whole
`get_verbatim_extracts` batch fails, and no Document list (not even a
partial one) is returned. -/
theorem get_verbatim_extracts_fails_whole (m : LanguageModel) (question : String)
    (passages : List Document) (P : Document) (err : Err)
    (hmem : P ∈ passages)
    (hfail : m.get_verbatim_extract_async question P = Except.error err) :
    (m.get_verbatim_extracts question passages).isOk = false := by
  have hmem2 : Except.error err ∈
      passages.map (fun Q => m.get_verbatim_extract_async question Q) := by
    rw [← hfail]
    exact List.mem_map_of_mem _ hmem
  obtain ⟨e2, h2⟩ := gatherExcept_error_of_mem _ err hmem2
  unfold LanguageModel.get_verbatim_extracts LanguageModel._get_verbatim_extracts
  rw [h2]
  rfl

/-- C10: whenever `get_verbatim_extracts` succeeds, the i-th output
Document's content is the stripped message text of the model's response to
the i-th extraction prompt — in particular it has no leading or trailing
whitespace. -/
theorem get_verbatim_extracts_content_stripped (m : LanguageModel)
    (question : String) (passages docs : List Document) (i : Nat)
    (rsp : LLMResponse)
    (h : m.get_verbatim_extracts question passages = Except.ok docs)
    (hi : i < passages.length) (hi2 : i < docs.length)
    (hrsp : m.agenerateFn
        (EXTRACTION_PROMPT_GPT4.format question (passages.get ⟨i, hi⟩).content) 1024
      = Except.ok rsp) :
    (docs.get ⟨i, hi2⟩).content = pyStrip rsp.message ∧
      strippedStr (docs.get ⟨i, hi2⟩).content := by
  unfold LanguageModel.get_verbatim_extracts LanguageModel._get_verbatim_extracts at h
  cases hg : gatherExcept
      (passages.map (fun P => m.get_verbatim_extract_async question P)) with
  | error e => rw [hg] at h; cases h
  | ok ve =>
    rw [hg] at h
    simp only [Except.ok.injEq] at h
    have hlen : ve.length = passages.length := by
      have := gatherExcept_ok_length _ _ hg
      simpa using this
    have hdl : docs.length = passages.length := by
      rw [← h]
      simp [hlen]
    have hiv : i < ve.length := by omega
    have him : i < (passages.map (fun P => m.get_verbatim_extract_async question P)).length := by
      simp
      omega
    have hes := gatherExcept_ok_get _ _ hg i him hiv
    have hfi : m.get_verbatim_extract_async question (passages.get ⟨i, hi⟩)
        = Except.ok (pyStrip rsp.message) := by
      simp only [LanguageModel.get_verbatim_extract_async, hrsp]
    have hvi : ve.get ⟨i, hiv⟩ = pyStrip rsp.message := by
      rw [List.get_eq_getElem, List.get_eq_getElem] at hes
      rw [List.getElem_map] at hes
      rw [List.get_eq_getElem] at hfi
      rw [hfi] at hes
      exact (Except.ok.injEq _ _ ▸ hes).symm ▸ rfl
    have hcontent : (docs.get ⟨i, hi2⟩).content = pyStrip rsp.message := by
      simp only [List.get_eq_getElem, ← h, List.getElem_map, List.getElem_zip]
      rw [← List.get_eq_getElem ve ⟨i, hiv⟩, hvi]
    refine ⟨hcontent, ?_⟩
    rw [hcontent]
    exact pyStrip_strippedStr rsp.message

/-- C3: when the stripped response text contains the marker "SOURCE:"
(first occurrence at index i), `get_summary_answer` returns a Document
whose content is the stripped text before the marker and whose "source"
metadata is "SOURCE: " followed by the stripped text after the marker. -/
theorem get_summary_answer_with_marker (m : LanguageModel) (question : String)
    (passages : List Document) (sp : String) (rsp : LLMResponse) (i : Nat)
    (hsp : stringify_passages passages = Except.ok sp)
    (hgen : m.generateFn
        (SUMMARY_ANSWER_PROMPT_GPT4.format ("Question:" ++ question) sp) 1024
      = Except.ok rsp)
    (hocc : firstOccur "SOURCE:".data (pyStrip rsp.message).data = some i) :
    m.get_summary_answer question passages = Except.ok
      { content := pyStrip (String.mk ((pyStrip rsp.message).data.take i))
        metadata := [("source", MVal.str ("SOURCE: "
            ++ pyStrip (String.mk
                ((pyStrip rsp.message).data.drop (i + "SOURCE:".length))))),
          ("cached", MVal.bool rsp.cached)] } := by
  simp only [LanguageModel.get_summary_answer, hsp, hgen]
  simp only [pySplitOnce, hocc]
  simp

/-- C4: when the stripped response text does not contain the marker
"SOURCE:", `get_summary_answer` returns a Document whose content is the
whole stripped text and whose "source" metadata is exactly the literal
"SOURCE: " (trailing space, not the empty string). -/
theorem get_summary_answer_no_marker (m : LanguageModel) (question : String)
    (passages : List Document) (sp : String) (rsp : LLMResponse)
    (hsp : stringify_passages passages = Except.ok sp)
    (hgen : m.generateFn
        (SUMMARY_ANSWER_PROMPT_GPT4.format ("Question:" ++ question) sp) 1024
      = Except.ok rsp)
    (hocc : firstOccur "SOURCE:".data (pyStrip rsp.message).data = none) :
    m.get_summary_answer question passages = Except.ok
      { content := pyStrip rsp.message
        metadata := [("source", MVal.str "SOURCE: "),
          ("cached", MVal.bool rsp.cached)] } := by
  simp only [LanguageModel.get_summary_answer, hsp, hgen]
  simp only [pySplitOnce, hocc]
  simp

/-- C8: if any passage's metadata lacks the "source" key, then
`get_summary_answer` fails with a lookup error (`KeyError "source"`),
raised while rendering the passages — for every model, so before any model
call could matter. -/
theorem get_summary_answer_missing_source (m : LanguageModel) (question : String)
    (passages : List Document) (p : Document)
    (hmem : p ∈ passages) (hnone : p.metadata.lookup "source" = none) :
    m.get_summary_answer question passages = Except.error (Err.keyError "source") := by
  have hs : stringify_passages passages = Except.error (Err.keyError "source") := by
    unfold stringify_passages
    rw [mapExcept_pieces_missing passages p hmem hnone]
  simp only [LanguageModel.get_summary_answer, hs]

/-- Witness for C1 at a two-passage input and a model answering
"  hello\n" to every call. -/
theorem get_verbatim_extracts_preserves_metadata_witness :
    extractsHello.length = ([doc1, doc2] : List Document).length ∧
    extractsHello.map (fun d => d.metadata)
      = ([doc1, doc2] : List Document).map (fun P => P.metadata) :=
  get_verbatim_extracts_preserves_metadata (constModel "  hello\n") "q"
    [doc1, doc2] extractsHello (by decide) (by decide)

/-- Witness for C2 at a one-passage input and a model whose call raises. -/
theorem get_verbatim_extracts_fails_whole_witness :
    (failModel.get_verbatim_extracts "q" [doc1]).isOk = false :=
  get_verbatim_extracts_fails_whole failModel "q" [doc1] doc1 (Err.llmError "boom")
    (by decide) (by decide)

/-- Witness for C10 at a one-passage input and a response with edge
whitespace. -/
theorem get_verbatim_extracts_content_stripped_witness :
    (extractsFact.get ⟨0, by decide⟩).content = pyStrip rspFact.message ∧
    strippedStr (extractsFact.get ⟨0, by decide⟩).content :=
  get_verbatim_extracts_content_stripped (constModel " fact-1 ") "q" [doc1]
    extractsFact 0 rspFact (by decide) (by decide) (by decide) (by decide)

/-- Witness for C3 at the response "...answer text...SOURCE: Doc1, Doc2"
(marker at index 17). -/
theorem get_summary_answer_with_marker_witness :
    (constModel rspMarker.message).get_summary_answer "q" [doc1] = Except.ok
      { content := "...answer text..."
        metadata := [("source", MVal.str "SOURCE: Doc1, Doc2"),
          ("cached", MVal.bool false)] } :=
  (get_summary_answer_with_marker (constModel rspMarker.message) "q" [doc1]
    spDoc1 rspMarker 17 (by decide) (by decide) (by decide)).trans (by decide)

/-- Witness for C4 at the marker-free response "just an answer  ". -/
theorem get_summary_answer_no_marker_witness :
    (constModel rspPlain.message).get_summary_answer "q" [doc1] = Except.ok
      { content := "just an answer"
        metadata := [("source", MVal.str "SOURCE: "),
          ("cached", MVal.bool false)] } :=
  (get_summary_answer_no_marker (constModel rspPlain.message) "q" [doc1]
    spDoc1 rspPlain (by decide) (by decide) (by decide)).trans (by decide)

/-- Witness for C8: a passage without a "source" key makes
`get_summary_answer` raise `KeyError "source"`, even under a model whose
calls would all fail. -/
theorem get_summary_answer_missing_source_witness :
    failModel.get_summary_answer "q" [doc1, docNoSource]
      = Except.error (Err.keyError "source") :=
  get_summary_answer_missing_source failModel "q" [doc1, docNoSource]
    docNoSource (by decide) (by decide)

end Llmagent
